import Mathlib

/-!
# qPOS payment terminal server — shallow embedding

This file embeds the core of the qPOS payment terminal server in Lean 4:
the `TestBankAPI` bank simulator (`src/services/TestBankAPI.js`), the
`Payment` model (`src/models/Payment.js`), and the WebSocket orchestrator of
`PaymentTerminalServer` (`handleTerminalReady`, `handleNFCDetected`,
`handlePaymentCompleted`, `processNFCPaymentWithBank`, `sendPaymentRequest`,
`sendToTerminal`, `isTerminalConnected`, and the connection-close handler).

Modelling conventions:
* JavaScript's `x || d` default for possibly-missing values is modelled by
  `jsOrInt` / `jsOrStr` / `jsOrRat` on `Option` values (`0`, `""`, `null`,
  `undefined` are falsy and fall back to the default).
* `Math.random()` draws, generated UUIDs, generated auth-code digits and the
  clock are supplied by an explicit `Env` of oracle values; a draw `r`
  satisfies `0 ≤ r < 1`.
* A thrown/rejected promise from a bank call is modelled by the oracle flags
  `authThrows` / `capThrows`; the orchestrator's `try/catch` blocks become
  the corresponding branches, so the embedded handlers are total functions —
  an escaping exception would show up as a missing branch.
* WebSocket connections are identified by numeric handles; `readyState` is an
  environment function `rs : Nat → Nat` (`WebSocket.OPEN = 1`).  The server's
  `clients` Map (terminal id → connection) is an association list with unique
  keys, `Map.set` / `Map.delete` / iteration order modelled exactly.
* The SQLite `payments` table is a list of rows; `Payment.update` writes the
  full instance back to every row with a matching id, `Payment.create`
  appends; `Payment.logTransaction` appends `(paymentId, action)` to an audit
  log; `ws.send` / `sendToTerminal` append to an outbox of
  `(connection, message)` pairs.
-/

namespace QPos

/-- JS `x || d` for numbers: `undefined`/`null`/`0` fall back to `d`. -/
def jsOrInt (v : Option Int) (d : Int) : Int :=
  match v with
  | some x => if x = 0 then d else x
  | none => d

/-- JS `x || d` for strings: `undefined`/`null`/`""` fall back to `d`. -/
def jsOrStr (v : Option String) (d : String) : String :=
  match v with
  | some s => if s = "" then d else s
  | none => d

/-- JS `x || d` for fractional numbers (success rates, delays). -/
def jsOrRat (v : Option ℚ) (d : ℚ) : ℚ :=
  match v with
  | some x => if x = 0 then d else x
  | none => d

/-- JS `x || null` for strings: a falsy value collapses to `null`. -/
def jsOrNullStr (v : Option String) : Option String :=
  match v with
  | some s => if s = "" then none else some s
  | none => none

/-- JS `String.prototype.trim`: strip leading and trailing whitespace. -/
def strTrim (s : String) : String :=
  String.mk
    (((s.data.dropWhile Char.isWhitespace).reverse.dropWhile
      Char.isWhitespace).reverse)

/-!
## Bank simulator (`TestBankAPI`)
-/

/-- The `errorCodes` table of the constructor, in property order. -/
def errorCodes : List (String × String) :=
  [("INSUFFICIENT_FUNDS", "E001"),
   ("CARD_BLOCKED", "E002"),
   ("NETWORK_ERROR", "E003"),
   ("INVALID_CARD", "E004"),
   ("EXPIRED_CARD", "E005"),
   ("TRANSACTION_DECLINED", "E006")]

/-- The 6 bank decline codes (values of `errorCodes`). -/
def bankTaxonomy : List String := ["E001", "E002", "E003", "E004", "E005", "E006"]

/-- `getErrorMessage`: canned human-readable message per code. -/
def getErrorMessage (errorCode : String) : String :=
  if errorCode = "E001" then "Insufficient funds"
  else if errorCode = "E002" then "Card is blocked"
  else if errorCode = "E003" then "Network connection error"
  else if errorCode = "E004" then "Invalid card data"
  else if errorCode = "E005" then "Card has expired"
  else if errorCode = "E006" then "Transaction declined by issuer"
  else "Unknown error"

/-- `generateRandomError`: pick key number `i` (the value of
`Math.floor(Math.random() * errorKeys.length)`), return its code and the
canned message for that code. -/
def generateRandomError (i : Fin 6) : String × String :=
  let code := (errorCodes.get ⟨i.val, by have h : errorCodes.length = 6 := rfl; omega⟩).2
  (code, getErrorMessage code)

/-- One base-36 digit of `Math.random().toString(36)`, upper-cased:
`0`–`9` then `A`–`Z`. -/
def base36UpperChar (d : Fin 36) : Char :=
  if d.val < 10 then Char.ofNat (48 + d.val) else Char.ofNat (55 + d.val)

/-- `generateAuthCode`: `Math.random().toString(36).substring(2, 8).toUpperCase()`
— up to six base-36 fraction digits of the random draw, upper-cased. -/
def generateAuthCode (ds : List (Fin 36)) : String :=
  String.mk ((ds.take 6).map base36UpperChar)

/-- `TestBankAPI` constructor: `this.successRate = options.successRate || 0.9`. -/
def initSuccessRate (opt : Option ℚ) : ℚ := jsOrRat opt (9/10)

/-- `TestBankAPI` constructor: `this.responseDelay = options.responseDelay || 500`. -/
def initResponseDelay (opt : Option ℚ) : ℚ := jsOrRat opt 500

/-- `setSuccessRate`: `Math.max(0, Math.min(1, rate))`. -/
def setSuccessRate (rate : ℚ) : ℚ := max 0 (min 1 rate)

/-- `setResponseDelay`: `Math.max(0, delay)`. -/
def setResponseDelay (delay : ℚ) : ℚ := max 0 delay

/-- The fields `authorizePayment` reads off its `paymentData` argument. -/
structure BankPaymentData where
  amount : Int
  currency : String
deriving DecidableEq

/-- Result object of `authorizePayment` / `capturePayment`: absent JS fields
are `none`. -/
structure BankResult where
  success : Bool
  transactionId : String
  authCode : Option String := none
  amount : Option Int := none
  currency : Option String := none
  capturedAmount : Option Int := none
  errorCode : Option String := none
  errorMessage : Option String := none
  timestamp : Nat
  status : String
deriving DecidableEq

/-- `authorizePayment`: after the injected delay, succeed iff the random
draw `rand` is below `successRate`; `tid` is the freshly generated
`randomUUID()`, `errIdx` the error-key draw, `authDigits` the auth-code
digit draw, `now` the timestamp. -/
def authorizePayment (successRate : ℚ) (rand : ℚ) (tid : String)
    (errIdx : Fin 6) (authDigits : List (Fin 36)) (now : Nat)
    (pd : BankPaymentData) : BankResult :=
  if rand < successRate then
    { success := true
      transactionId := tid
      authCode := some (generateAuthCode authDigits)
      amount := some pd.amount
      currency := some pd.currency
      timestamp := now
      status := "authorized" }
  else
    let e := generateRandomError errIdx
    { success := false
      transactionId := tid
      errorCode := some e.1
      errorMessage := some e.2
      timestamp := now
      status := "declined" }

/-- `capturePayment`: fixed 0.99 success probability, independent of
`successRate`. -/
def capturePayment (rand : ℚ) (transactionId : String) (amount : Option Int)
    (now : Nat) : BankResult :=
  if rand < 99/100 then
    { success := true
      transactionId := transactionId
      capturedAmount := amount
      timestamp := now
      status := "captured" }
  else
    { success := false
      transactionId := transactionId
      errorCode := some "E007"
      errorMessage := some "Capture failed - authorization expired"
      timestamp := now
      status := "capture_failed" }

/-!
## `Payment` model
-/

/-- A row of the `payments` table / a `Payment` instance. -/
structure Payment where
  id : String
  terminalId : String
  amount : Int
  currency : String
  method : String
  status : String
  bankTransactionId : Option String
  errorCode : Option String
  createdAt : Nat
  completedAt : Option Nat
deriving DecidableEq

/-- The `data` argument of the `Payment` constructor (camelCase variants). -/
structure PaymentData where
  id : Option String := none
  terminalId : Option String := none
  amount : Option Int := none
  currency : Option String := none
  method : Option String := none
  status : Option String := none
  bankTransactionId : Option String := none
  errorCode : Option String := none
  completedAt : Option Nat := none
deriving DecidableEq

/-- The `Payment` constructor: `uuid` is the fresh `uuidv4()` draw, `now`
the clock value used for a missing `createdAt`. -/
def Payment.build (uuid : String) (now : Nat) (d : PaymentData) : Payment :=
  { id := jsOrStr d.id uuid
    terminalId := jsOrStr d.terminalId ""
    amount := jsOrInt d.amount 0
    currency := jsOrStr d.currency "RUB"
    method := jsOrStr d.method ""
    status := jsOrStr d.status "pending"
    bankTransactionId := jsOrNullStr d.bankTransactionId
    errorCode := jsOrNullStr d.errorCode
    createdAt := now
    completedAt := d.completedAt }

/-- An `updateData` object passed to `payment.update`; `none` means the key
is absent. -/
structure PaymentUpdate where
  method : Option String := none
  status : Option String := none
  bankTransactionId : Option String := none
  errorCode : Option String := none
  completedAt : Option Nat := none
deriving DecidableEq

/-- `payment.update` (instance part): overwrite exactly the supplied keys. -/
def Payment.applyUpdate (p : Payment) (u : PaymentUpdate) : Payment :=
  { p with
    method := u.method.getD p.method
    status := u.status.getD p.status
    bankTransactionId :=
      match u.bankTransactionId with
      | some s => some s
      | none => p.bankTransactionId
    errorCode :=
      match u.errorCode with
      | some s => some s
      | none => p.errorCode
    completedAt :=
      match u.completedAt with
      | some t => some t
      | none => p.completedAt }

/-- `Payment.findById`: first row with the given id. -/
def findById : List Payment → String → Option Payment
  | [], _ => none
  | q :: rest, pid => if q.id == pid then some q else findById rest pid

/-- `payment.update` (SQL part): `UPDATE payments SET ... WHERE id = ?`
writes the full updated instance to every matching row. -/
def writeRow : List Payment → Payment → List Payment
  | [], _ => []
  | q :: rest, p => (if q.id == p.id then p else q) :: writeRow rest p

/-- Whether some row with the given id exists. -/
def hasPayment : List Payment → String → Bool
  | [], _ => false
  | q :: rest, pid => (q.id == pid) || hasPayment rest pid

/-!
## Terminal channel (`this.clients` Map and WebSocket plumbing)
-/

/-- `WebSocket.OPEN`. -/
def wsOpen : Nat := 1

/-- `Map.get`: first (and in a JS Map, only) entry for the key. -/
def mapGet : List (String × Nat) → String → Option Nat
  | [], _ => none
  | e :: rest, k => if e.1 == k then some e.2 else mapGet rest k

/-- `Map.has`. -/
def mapHas : List (String × Nat) → String → Bool
  | [], _ => false
  | e :: rest, k => (e.1 == k) || mapHas rest k

/-- In-place replacement of every entry for a key. -/
def mapReplace : List (String × Nat) → String → Nat → List (String × Nat)
  | [], _, _ => []
  | e :: rest, k, v => (if e.1 == k then (k, v) else e) :: mapReplace rest k v

/-- `Map.set`: replace in place when the key exists, else append. -/
def mapSet (m : List (String × Nat)) (k : String) (v : Nat) :
    List (String × Nat) :=
  if mapHas m k then mapReplace m k v else m ++ [(k, v)]

/-- The `ws.on('close')` handler: walk the entries in order, delete the
first one whose stored connection is identical to the closing one, stop. -/
def mapDeleteFirstConn : List (String × Nat) → Nat → List (String × Nat)
  | [], _ => []
  | e :: rest, ws => if e.2 == ws then rest else e :: mapDeleteFirstConn rest ws

/-- The optional `{amount, transactionId, authCode}` / `{errorCode,
errorMessage}` payload spread into a `payment_status` message, plus the
echoed `result` of a `payment_completed` confirmation. -/
structure CompletedResult where
  status : String
  bankTransactionId : Option String := none
  errorCode : Option String := none
deriving DecidableEq

structure StatusData where
  amount : Option Int := none
  transactionId : Option String := none
  authCode : Option String := none
  errorCode : Option String := none
  errorMessage : Option String := none
  result : Option CompletedResult := none
deriving DecidableEq

/-- The JSON messages the server sends, discriminated by `type`. -/
inductive Msg where
  | errorMsg (message : String)
  | terminalConfig (terminalId : String)
  | paymentRequest (paymentId : String) (amount : Int) (currency : String)
      (method : String)
  | paymentStatus (paymentId : String) (status : String) (message : String)
      (extra : StatusData)
deriving DecidableEq

/-- The mutable server state: the terminal-id → connection Map, the
`payments` table, the messages handed to `ws.send` (in order, tagged with
the receiving connection), and the `logTransaction` audit log. -/
structure ServerState where
  clients : List (String × Nat)
  payments : List Payment
  outbox : List (Nat × Msg)
  tlog : List (String × String)
deriving DecidableEq

/-- `ws.send` on a known connection handle. -/
def pushMsg (st : ServerState) (ws : Nat) (m : Msg) : ServerState :=
  { st with outbox := st.outbox ++ [(ws, m)] }

/-- `Payment.logTransaction`. -/
def logTransaction (st : ServerState) (pid action : String) : ServerState :=
  { st with tlog := st.tlog ++ [(pid, action)] }

/-- `sendToTerminal`: deliver iff a stored connection exists and its
`readyState` is `OPEN`; report delivery as a Bool, never raise. -/
def sendToTerminal (rs : Nat → Nat) (st : ServerState) (terminalId : String)
    (m : Msg) : ServerState × Bool :=
  match mapGet st.clients terminalId with
  | some c => if rs c == wsOpen then (pushMsg st c m, true) else (st, false)
  | none => (st, false)

/-- `isTerminalConnected`: false on a missing/empty/whitespace id, else a
live `OPEN` connection must be stored. -/
def isTerminalConnected (rs : Nat → Nat) (clients : List (String × Nat))
    (terminalId : Option String) : Bool :=
  match terminalId with
  | none => false
  | some s =>
    if strTrim s == "" then false
    else
      match mapGet clients s with
      | some c => rs c == wsOpen
      | none => false

/-- The validation `!terminalId || typeof terminalId !== 'string' ||
terminalId.trim() === ''` shared by the WebSocket handlers. -/
def validTerminalId : Option String → Bool
  | none => false
  | some s => !(s == "") && !(strTrim s == "")

/-!
## Orchestrator (`PaymentTerminalServer` WebSocket handlers)
-/

/-- Oracle for one orchestrated run: the fresh UUIDs, random draws, clock
value and injected bank-transport failures. -/
structure Env where
  freshPid : String := "p-fresh"
  now : Nat := 0
  authThrows : Bool := false
  authRand : ℚ := 0
  authTid : String := "tx-fresh"
  authErrIdx : Fin 6 := 0
  authDigits : List (Fin 36) := []
  capThrows : Bool := false
  capRand : ℚ := 0
deriving DecidableEq

/-- The `catch` block of `processNFCPaymentWithBank`: mark the session
failed with the network-error code `E003`, log `bank_error`, push a failed
`payment_status` to the terminal. -/
def bankErrorBranch (rs : Nat → Nat) (st : ServerState) (terminalId : String)
    (pay : Payment) : ServerState × Payment :=
  let pay1 := pay.applyUpdate { status := some "failed", errorCode := some "E003" }
  let st1 := { st with payments := writeRow st.payments pay1 }
  let st2 := logTransaction st1 pay1.id "bank_error"
  let st3 := (sendToTerminal rs st2 terminalId
    (Msg.paymentStatus pay1.id "failed" "Bank communication error"
      { errorCode := some "E003",
        errorMessage := some "Network connection error" })).1
  (st3, pay1)

/-- `processNFCPaymentWithBank`: authorize, then on success capture, then
finalize; every branch (including a thrown bank call, via
`bankErrorBranch`) ends in a stored `completed`/`failed` row plus one
status push.  Returns the state, the final `Payment` instance, and whether
`capturePayment` was invoked. -/
def processNFCPaymentWithBank (rate : ℚ) (env : Env) (rs : Nat → Nat)
    (st : ServerState) (terminalId : String) (pay : Payment) :
    ServerState × Payment × Bool :=
  if env.authThrows then
    let (st', pay') := bankErrorBranch rs st terminalId pay
    (st', pay', false)
  else
    let authResult := authorizePayment rate env.authRand env.authTid
      env.authErrIdx env.authDigits env.now ⟨pay.amount, pay.currency⟩
    if authResult.success then
      let pay1 := pay.applyUpdate
        { bankTransactionId := some authResult.transactionId,
          status := some "authorized" }
      let st1 := logTransaction
        { st with payments := writeRow st.payments pay1 } pay1.id "bank_authorized"
      if env.capThrows then
        let (st', pay') := bankErrorBranch rs st1 terminalId pay1
        (st', pay', true)
      else
        let captureResult := capturePayment env.capRand authResult.transactionId
          (some pay.amount) env.now
        if captureResult.success then
          let pay2 := pay1.applyUpdate
            { status := some "completed", completedAt := some env.now }
          let st2 := logTransaction
            { st1 with payments := writeRow st1.payments pay2 } pay2.id "completed"
          let st3 := (sendToTerminal rs st2 terminalId
            (Msg.paymentStatus pay2.id "completed" "Payment successful"
              { amount := some pay.amount,
                transactionId := some authResult.transactionId,
                authCode := authResult.authCode })).1
          (st3, pay2, true)
        else
          let pay2 := pay1.applyUpdate
            { status := some "failed", errorCode := captureResult.errorCode }
          let st2 := logTransaction
            { st1 with payments := writeRow st1.payments pay2 } pay2.id "capture_failed"
          let st3 := (sendToTerminal rs st2 terminalId
            (Msg.paymentStatus pay2.id "failed" "Payment capture failed"
              { errorCode := captureResult.errorCode,
                errorMessage := captureResult.errorMessage })).1
          (st3, pay2, true)
    else
      let pay1 := pay.applyUpdate
        { status := some "failed", errorCode := authResult.errorCode,
          bankTransactionId := some authResult.transactionId }
      let st1 := logTransaction
        { st with payments := writeRow st.payments pay1 } pay1.id "auth_failed"
      let st2 := (sendToTerminal rs st1 terminalId
        (Msg.paymentStatus pay1.id "failed" "Payment authorization failed"
          { errorCode := authResult.errorCode,
            errorMessage := authResult.errorMessage })).1
      (st2, pay1, false)

/-- A `terminal_ready` handshake message. -/
structure ReadyMsg where
  terminalId : Option String := none
deriving DecidableEq

/-- `handleTerminalReady`: validate the id, require the terminal row to
exist (`terminals` is the set of ids in the `terminals` table), then
register the connection and push `terminal_config`; otherwise send an
`error` event and leave the `clients` Map untouched. -/
def handleTerminalReady (terminals : List String) (st : ServerState)
    (ws : Nat) (data : ReadyMsg) : ServerState :=
  if !(validTerminalId data.terminalId) then
    pushMsg st ws (Msg.errorMsg "Valid Terminal ID is required")
  else
    match data.terminalId with
    | none => st
    | some terminalId =>
      if terminals.contains terminalId then
        pushMsg { st with clients := mapSet st.clients terminalId ws } ws
          (Msg.terminalConfig terminalId)
      else
        pushMsg st ws (Msg.errorMsg "Terminal not found")

/-- The payload of an `nfc_detected` message. -/
structure NfcData where
  amount : Option Int := none
  currency : Option String := none
deriving DecidableEq

structure NfcMsg where
  terminalId : Option String := none
  paymentId : Option String := none
  nfcData : NfcData := {}
deriving DecidableEq

/-- `handleNFCDetected`: validate the terminal id and its registration;
with a truthy `paymentId` (`if (paymentId)` — falsy for both a missing and
an empty-string id, modelled by `jsOrNullStr`), load that session
(rejecting a missing one) and move it to `processing`; with a falsy one,
create a fresh `processing` session with the payload's amount (default
1000) and currency (default RUB); then log, push the `processing` status
and run the bank cycle.  Returns the state and, as instrumentation of the
run, whether `capturePayment` was invoked. -/
def handleNFCDetectedRun (rate : ℚ) (env : Env) (rs : Nat → Nat)
    (st : ServerState) (ws : Nat) (data : NfcMsg) : ServerState × Bool :=
  if !(validTerminalId data.terminalId) then
    (pushMsg st ws (Msg.errorMsg "Valid Terminal ID is required"), false)
  else
    match data.terminalId with
    | none => (st, false)
    | some terminalId =>
      if !(mapHas st.clients terminalId) then
        (pushMsg st ws (Msg.errorMsg "Terminal not registered"), false)
      else
        let afterLoad : Option (ServerState × Payment) :=
          match jsOrNullStr data.paymentId with
          | some pid =>
            match findById st.payments pid with
            | none => none
            | some payment =>
              let pay1 := payment.applyUpdate
                { method := some "nfc", status := some "processing" }
              some ({ st with payments := writeRow st.payments pay1 }, pay1)
          | none =>
            let pay1 := Payment.build env.freshPid env.now
              { terminalId := some terminalId,
                amount := some (jsOrInt data.nfcData.amount 1000),
                currency := some (jsOrStr data.nfcData.currency "RUB"),
                method := some "nfc",
                status := some "processing" }
            some ({ st with payments := st.payments ++ [pay1] }, pay1)
        match afterLoad with
        | none => (pushMsg st ws (Msg.errorMsg "Payment not found"), false)
        | some (st1, pay1) =>
          let st2 := logTransaction st1 pay1.id "nfc_detected"
          let st3 := pushMsg st2 ws
            (Msg.paymentStatus pay1.id "processing" "Processing NFC payment" {})
          let r := processNFCPaymentWithBank rate env rs st3 terminalId pay1
          (r.1, r.2.2)

/-- The state after an `nfc_detected` message. -/
def handleNFCDetected (rate : ℚ) (env : Env) (rs : Nat → Nat)
    (st : ServerState) (ws : Nat) (data : NfcMsg) : ServerState :=
  (handleNFCDetectedRun rate env rs st ws data).1

/-- A `payment_completed` message. -/
structure CompletedMsg where
  terminalId : Option String := none
  paymentId : Option String := none
  result : CompletedResult
deriving DecidableEq

/-- `handlePaymentCompleted`: validate the terminal id, load the session
(rejecting a missing id), overwrite its status with the event's
`result.status`, stamp `completedAt`, copy a supplied bank transaction id
or error code, log, and echo a `payment_status` confirmation. -/
def handlePaymentCompleted (env : Env) (st : ServerState) (ws : Nat)
    (data : CompletedMsg) : ServerState :=
  if !(validTerminalId data.terminalId) then
    pushMsg st ws (Msg.errorMsg "Valid Terminal ID is required")
  else
    let stored :=
      match data.paymentId with
      | some pid => findById st.payments pid
      | none => none
    match stored with
    | none => pushMsg st ws (Msg.errorMsg "Payment not found")
    | some payment =>
      let pay1 := payment.applyUpdate
        { status := some data.result.status,
          completedAt := some env.now,
          bankTransactionId := jsOrNullStr data.result.bankTransactionId,
          errorCode := jsOrNullStr data.result.errorCode }
      let st1 := logTransaction
        { st with payments := writeRow st.payments pay1 } pay1.id "payment_completed"
      pushMsg st1 ws
        (Msg.paymentStatus pay1.id data.result.status
          (if data.result.status == "completed" then "Payment confirmed"
           else "Payment failed")
          { result := some data.result })

/-- The `paymentData` argument of `sendPaymentRequest`. -/
structure ReqPaymentData where
  amount : Option Int := none
  currency : Option String := none
  method : Option String := none
deriving DecidableEq

/-- `sendPaymentRequest`: validate only the terminal id, create a `pending`
session from the supplied data (no amount validation), push the
`payment_request` event; when the terminal is not connected, mark the
session `failed` with `TERMINAL_OFFLINE` and raise `Terminal not
connected`. -/
def sendPaymentRequest (env : Env) (rs : Nat → Nat) (st : ServerState)
    (terminalIdArg : Option String) (pd : ReqPaymentData) :
    ServerState × Except String Payment :=
  if !(validTerminalId terminalIdArg) then
    (st, Except.error "Valid Terminal ID is required")
  else
    match terminalIdArg with
    | none => (st, Except.error "Valid Terminal ID is required")
    | some terminalId =>
      let payment := Payment.build env.freshPid env.now
        { terminalId := some terminalId,
          amount := pd.amount,
          currency := some (jsOrStr pd.currency "RUB"),
          method := some (jsOrStr pd.method "nfc"),
          status := some "pending" }
      let st1 := logTransaction
        { st with payments := st.payments ++ [payment] } payment.id "payment_request"
      let sendRes := sendToTerminal rs st1 terminalId
        (Msg.paymentRequest payment.id payment.amount payment.currency
          payment.method)
      if sendRes.2 then
        (sendRes.1, Except.ok payment)
      else
        let pay1 := payment.applyUpdate
          { status := some "failed", errorCode := some "TERMINAL_OFFLINE" }
        ({ sendRes.1 with payments := writeRow sendRes.1.payments pay1 },
          Except.error "Terminal not connected")

/-!
## Helper lemmas on the row store and the connection map
-/

lemma findById_writeRow_self (rows : List Payment) (p : Payment)
    (h : hasPayment rows p.id = true) :
    findById (writeRow rows p) p.id = some p := by
  induction rows with
  | nil => simp [hasPayment] at h
  | cons q rest ih =>
    by_cases hq : q.id = p.id
    · simp [writeRow, findById, hq]
    · have hbq : (q.id == p.id) = false := by simpa using hq
      have h' : hasPayment rest p.id = true := by
        simpa [hasPayment, hbq] using h
      simp [writeRow, findById, hbq]
      exact ih h'

lemma hasPayment_writeRow (rows : List Payment) (p : Payment) (pid : String) :
    hasPayment (writeRow rows p) pid = hasPayment rows pid := by
  induction rows with
  | nil => simp [writeRow]
  | cons q rest ih =>
    by_cases hq : q.id = p.id
    · simp [hasPayment, writeRow, hq, ih]
    · have hbq : (q.id == p.id) = false := by simpa using hq
      simp [hasPayment, writeRow, hbq, ih]

lemma findById_none_of_not_has (rows : List Payment) (pid : String)
    (h : hasPayment rows pid = false) : findById rows pid = none := by
  induction rows with
  | nil => simp [findById]
  | cons q rest ih =>
    simp [hasPayment] at h
    simp [findById, h.1]
    exact ih (by simpa [hasPayment] using h.2)

lemma findById_append_fresh (rows : List Payment) (p : Payment)
    (h : hasPayment rows p.id = false) :
    findById (rows ++ [p]) p.id = some p := by
  induction rows with
  | nil => simp [findById]
  | cons q rest ih =>
    simp [hasPayment] at h
    simp [findById, h.1]
    exact ih (by simpa [hasPayment] using h.2)

lemma findById_id (rows : List Payment) (pid : String) (p : Payment)
    (h : findById rows pid = some p) : p.id = pid := by
  induction rows with
  | nil => simp [findById] at h
  | cons q rest ih =>
    by_cases hq : q.id = pid
    · simp [findById, hq] at h
      exact h ▸ hq
    · simp [findById, hq] at h
      exact ih h

lemma hasPayment_of_findById (rows : List Payment) (pid : String) (p : Payment)
    (h : findById rows pid = some p) : hasPayment rows pid = true := by
  induction rows with
  | nil => simp [findById] at h
  | cons q rest ih =>
    by_cases hq : q.id = pid
    · simp [hasPayment, hq]
    · simp [findById, hq] at h
      simp [hasPayment, hq, ih h]

lemma applyUpdate_id (p : Payment) (u : PaymentUpdate) :
    (p.applyUpdate u).id = p.id := rfl

lemma sendToTerminal_payments (rs : Nat → Nat) (st : ServerState)
    (tid : String) (m : Msg) :
    (sendToTerminal rs st tid m).1.payments = st.payments := by
  cases hg : mapGet st.clients tid with
  | none => simp [sendToTerminal, hg]
  | some c =>
    by_cases ho : (rs c == wsOpen) = true
    · simp [sendToTerminal, hg, ho, pushMsg]
    · have ho' : ¬ rs c = wsOpen := by simpa using ho
      simp [sendToTerminal, hg, ho']

lemma sendToTerminal_clients (rs : Nat → Nat) (st : ServerState)
    (tid : String) (m : Msg) :
    (sendToTerminal rs st tid m).1.clients = st.clients := by
  cases hg : mapGet st.clients tid with
  | none => simp [sendToTerminal, hg]
  | some c =>
    by_cases ho : (rs c == wsOpen) = true
    · simp [sendToTerminal, hg, ho, pushMsg]
    · have ho' : ¬ rs c = wsOpen := by simpa using ho
      simp [sendToTerminal, hg, ho']

lemma sendToTerminal_of_connected (rs : Nat → Nat) (st : ServerState)
    (tid : String) (m : Msg) (c : Nat) (hc : mapGet st.clients tid = some c)
    (ho : rs c = wsOpen) :
    sendToTerminal rs st tid m = (pushMsg st c m, true) := by
  simp [sendToTerminal, hc, ho]

lemma sendToTerminal_of_disconnected (rs : Nat → Nat) (st : ServerState)
    (tid : String) (m : Msg)
    (htrim : (strTrim tid == "") = false)
    (h : isTerminalConnected rs st.clients (some tid) = false) :
    sendToTerminal rs st tid m = (st, false) := by
  simp [isTerminalConnected, htrim] at h
  cases hg : mapGet st.clients tid with
  | none => simp [sendToTerminal, hg]
  | some c =>
    have h' : (rs c == wsOpen) = false := by
      rw [hg] at h
      simpa using h
    simp [sendToTerminal, hg, h']

/-- Every branch of the bank cycle ends with the final instance stored,
keeping its id and method, with a terminal status; `completedAt` is stamped
exactly on the capture-success branch. -/
lemma processNFC_spec (rate : ℚ) (env : Env) (rs : Nat → Nat)
    (st : ServerState) (tid : String) (pay : Payment)
    (h : hasPayment st.payments pay.id = true) :
    findById (processNFCPaymentWithBank rate env rs st tid pay).1.payments pay.id
      = some (processNFCPaymentWithBank rate env rs st tid pay).2.1 ∧
    (processNFCPaymentWithBank rate env rs st tid pay).2.1.id = pay.id ∧
    (processNFCPaymentWithBank rate env rs st tid pay).2.1.method = pay.method ∧
    ((processNFCPaymentWithBank rate env rs st tid pay).2.1.status = "completed" ∨
     (processNFCPaymentWithBank rate env rs st tid pay).2.1.status = "failed") ∧
    ((processNFCPaymentWithBank rate env rs st tid pay).2.1.status = "completed" →
      (processNFCPaymentWithBank rate env rs st tid pay).2.1.completedAt
        = some env.now) ∧
    ((processNFCPaymentWithBank rate env rs st tid pay).2.1.status = "failed" →
      (processNFCPaymentWithBank rate env rs st tid pay).2.1.completedAt
        = pay.completedAt) := by
  by_cases h1 : env.authThrows
  · simp only [processNFCPaymentWithBank, h1, if_true, bankErrorBranch]
    refine ⟨?_, rfl, rfl, Or.inr rfl,
      (by intro hx; simp [Payment.applyUpdate] at hx),
      (by intro hx; simp [Payment.applyUpdate])⟩
    rw [sendToTerminal_payments]
    exact findById_writeRow_self _ _ h
  · by_cases h2 : env.authRand < rate
    · by_cases h3 : env.capThrows
      · simp only [processNFCPaymentWithBank, h1, if_false, authorizePayment, h2,
          if_true, h3, bankErrorBranch, Bool.false_eq_true, logTransaction]
        refine ⟨?_, rfl, rfl, Or.inr rfl,
      (by intro hx; simp [Payment.applyUpdate] at hx),
      (by intro hx; simp [Payment.applyUpdate])⟩
        rw [sendToTerminal_payments]
        exact findById_writeRow_self _ _
          (by simpa [hasPayment_writeRow] using h)
      · by_cases h4 : env.capRand < 99/100
        · simp only [processNFCPaymentWithBank, h1, authorizePayment, h2, if_true,
            h3, capturePayment, h4, Bool.false_eq_true, if_false, logTransaction]
          refine ⟨?_, rfl, rfl, Or.inl rfl,
      (by intro hx; simp [Payment.applyUpdate]),
      (by intro hx; simp [Payment.applyUpdate] at hx)⟩
          rw [sendToTerminal_payments]
          exact findById_writeRow_self _ _
            (by simpa [hasPayment_writeRow] using h)
        · simp only [processNFCPaymentWithBank, h1, authorizePayment, h2, if_true,
            h3, capturePayment, h4, Bool.false_eq_true, if_false, logTransaction]
          refine ⟨?_, rfl, rfl, Or.inr rfl,
      (by intro hx; simp [Payment.applyUpdate] at hx),
      (by intro hx; simp [Payment.applyUpdate])⟩
          rw [sendToTerminal_payments]
          exact findById_writeRow_self _ _
            (by simpa [hasPayment_writeRow] using h)
    · simp only [processNFCPaymentWithBank, h1, authorizePayment, h2, if_false,
        Bool.false_eq_true, logTransaction]
      refine ⟨?_, rfl, rfl, Or.inr rfl,
      (by intro hx; simp [Payment.applyUpdate] at hx),
      (by intro hx; simp [Payment.applyUpdate])⟩
      rw [sendToTerminal_payments]
      exact findById_writeRow_self _ _ h

/-- The auth-decline branch: no capture call, session failed with the drawn
taxonomy code, the bank transaction id stored, `completedAt` untouched. -/
lemma processNFC_declined (rate : ℚ) (env : Env) (rs : Nat → Nat)
    (st : ServerState) (tid : String) (pay : Payment)
    (hth : env.authThrows = false) (hrand : ¬ env.authRand < rate) :
    (processNFCPaymentWithBank rate env rs st tid pay).2.2 = false ∧
    (processNFCPaymentWithBank rate env rs st tid pay).2.1.status = "failed" ∧
    (processNFCPaymentWithBank rate env rs st tid pay).2.1.errorCode
      = some (generateRandomError env.authErrIdx).1 ∧
    (processNFCPaymentWithBank rate env rs st tid pay).2.1.bankTransactionId
      = some env.authTid ∧
    (processNFCPaymentWithBank rate env rs st tid pay).2.1.completedAt
      = pay.completedAt := by
  simp [processNFCPaymentWithBank, hth, authorizePayment, hrand,
    Payment.applyUpdate]

/-!
## C8: shape of `authorizePayment` results
-/

lemma generateRandomError_in_taxonomy (i : Fin 6) :
    (generateRandomError i).1 ∈ bankTaxonomy := by
  fin_cases i <;> decide

lemma generateRandomError_message (i : Fin 6) :
    (generateRandomError i).2 = getErrorMessage (generateRandomError i).1 := by
  fin_cases i <;> decide

lemma base36UpperChar_isAlphanum (d : Fin 36) :
    (base36UpperChar d).isAlphanum = true := by
  fin_cases d <;> decide

lemma generateAuthCode_isAlphanum (ds : List (Fin 36)) :
    ∀ c ∈ (generateAuthCode ds).data, c.isAlphanum = true := by
  intro c hc
  have hm : c ∈ (ds.take 6).map base36UpperChar := by
    simpa [generateAuthCode] using hc
  obtain ⟨d, _, rfl⟩ := List.mem_map.mp hm
  exact base36UpperChar_isAlphanum d

/-- C8: every `authorizePayment` result carries the freshly generated
transaction id and a timestamp; on success it carries the generated
alphanumeric authorization code, echoes the request's amount and currency,
and has status `authorized`; on failure it carries an error code from the
fixed taxonomy `E001`–`E006` with that code's canned message and status
`declined`. -/
theorem authorize_result_shape (rate rand : ℚ) (tid : String) (errIdx : Fin 6)
    (digits : List (Fin 36)) (now : Nat) (pd : BankPaymentData) :
    (authorizePayment rate rand tid errIdx digits now pd).transactionId = tid ∧
    (authorizePayment rate rand tid errIdx digits now pd).timestamp = now ∧
    (rand < rate →
      (authorizePayment rate rand tid errIdx digits now pd).success = true ∧
      (authorizePayment rate rand tid errIdx digits now pd).status = "authorized" ∧
      (authorizePayment rate rand tid errIdx digits now pd).authCode
        = some (generateAuthCode digits) ∧
      (∀ c ∈ (generateAuthCode digits).data, c.isAlphanum = true) ∧
      (authorizePayment rate rand tid errIdx digits now pd).amount = some pd.amount ∧
      (authorizePayment rate rand tid errIdx digits now pd).currency
        = some pd.currency) ∧
    (¬ rand < rate →
      (authorizePayment rate rand tid errIdx digits now pd).success = false ∧
      (authorizePayment rate rand tid errIdx digits now pd).status = "declined" ∧
      (authorizePayment rate rand tid errIdx digits now pd).errorCode
        = some (generateRandomError errIdx).1 ∧
      (generateRandomError errIdx).1 ∈ bankTaxonomy ∧
      (authorizePayment rate rand tid errIdx digits now pd).errorMessage
        = some (getErrorMessage (generateRandomError errIdx).1)) := by
  refine ⟨?_, ?_, ?_, ?_⟩
  · by_cases h : rand < rate <;> simp [authorizePayment, h]
  · by_cases h : rand < rate <;> simp [authorizePayment, h]
  · intro h
    refine ⟨?_, ?_, ?_, generateAuthCode_isAlphanum digits, ?_, ?_⟩ <;>
      simp [authorizePayment, h]
  · intro h
    refine ⟨?_, ?_, ?_, generateRandomError_in_taxonomy errIdx, ?_⟩ <;>
      simp [authorizePayment, h, generateRandomError_message]

/-- Witness for C8: a successful and a declined call at concrete inputs. -/
theorem authorize_result_shape_witness :
    (authorizePayment (9/10) (1/2) "t1" 0 [] 7 ⟨100, "RUB"⟩).status = "authorized" ∧
    (authorizePayment 0 (1/2) "t1" 0 [] 7 ⟨100, "RUB"⟩).status = "declined" := by
  constructor
  · exact ((authorize_result_shape (9/10) (1/2) "t1" 0 [] 7
      ⟨100, "RUB"⟩).2.2.1 (by norm_num)).2.1
  · exact ((authorize_result_shape 0 (1/2) "t1" 0 [] 7
      ⟨100, "RUB"⟩).2.2.2 (by norm_num)).2.1

/-!
## C1: events for sessions already in a terminal state
-/

/-- A session that already reached the terminal state `completed`. -/
def cxPay : Payment :=
  { id := "p1", terminalId := "T1", amount := 500, currency := "RUB",
    method := "nfc", status := "completed", bankTransactionId := some "tx0",
    errorCode := none, createdAt := 0, completedAt := some 5 }

/-- A server with terminal `T1` registered on connection 7 and the
completed session stored. -/
def cxState : ServerState :=
  { clients := [("T1", 7)], payments := [cxPay], outbox := [], tlog := [] }

/-- The state just before the bank cycle when `handleNFCDetected` proceeds
with session `pay1`: row written, `nfc_detected` logged, `processing`
status pushed. -/
def nfcProceedState (st : ServerState) (ws : Nat) (pay1 : Payment) :
    ServerState :=
  pushMsg
    (logTransaction { st with payments := writeRow st.payments pay1 }
      pay1.id "nfc_detected")
    ws (Msg.paymentStatus pay1.id "processing" "Processing NFC payment" {})

/-- `handleNFCDetectedRun` on an existing session reduces to the bank cycle
on the session moved to `processing` — no check of the stored pre-state. -/
lemma handleNFC_existing (rate : ℚ) (env : Env) (rs : Nat → Nat)
    (st : ServerState) (ws : Nat) (tid pid : String) (p : Payment)
    (nd : NfcData)
    (hv : validTerminalId (some tid) = true)
    (hreg : mapHas st.clients tid = true)
    (hne : ¬ pid = "")
    (hp : findById st.payments pid = some p) :
    handleNFCDetectedRun rate env rs st ws
        { terminalId := some tid, paymentId := some pid, nfcData := nd }
      = ((processNFCPaymentWithBank rate env rs
            (nfcProceedState st ws
              (p.applyUpdate { method := some "nfc", status := some "processing" }))
            tid
            (p.applyUpdate { method := some "nfc", status := some "processing" })).1,
         (processNFCPaymentWithBank rate env rs
            (nfcProceedState st ws
              (p.applyUpdate { method := some "nfc", status := some "processing" }))
            tid
            (p.applyUpdate { method := some "nfc", status := some "processing" })).2.2) := by
  simp [handleNFCDetectedRun, hv, hreg, hp, nfcProceedState, jsOrNullStr, hne]

/-- C1 (counterexample): an `nfc_detected` event for session `p1`, which is
already `completed`, is not rejected: no `error` event is emitted — the
terminal instead receives `processing` and then `failed` status pushes —
and the stored session is mutated from `completed` to `failed`.  (Here the
bank call throws, so the re-run drives the completed session to `failed`.) -/
theorem nfc_event_on_completed_session_mutates :
    findById (handleNFCDetected 1 { authThrows := true } (fun _ => 1)
        cxState 7 { terminalId := some "T1", paymentId := some "p1" }).payments "p1"
      = some { cxPay with status := "failed", errorCode := some "E003" } ∧
    (handleNFCDetected 1 { authThrows := true } (fun _ => 1)
        cxState 7 { terminalId := some "T1", paymentId := some "p1" }).outbox
      = [(7, Msg.paymentStatus "p1" "processing" "Processing NFC payment" {}),
         (7, Msg.paymentStatus "p1" "failed" "Bank communication error"
           { errorCode := some "E003",
             errorMessage := some "Network connection error" })] := by
  constructor <;> decide

/-- C1 (amended): an event carrying a non-empty session id that does not
exist is rejected with a `Payment not found` error event and the store is
untouched (an empty-string id is falsy under the source's `if (paymentId)`
and is treated like an absent one: `nfc_detected` then creates a fresh
session instead); but for an existing session no pre-state check is made —
an `nfc_detected` event re-enters the bank cycle (the stored row is forced
to method `nfc` and driven to a fresh terminal status), and a
`payment_completed` event overwrites the stored status with the event's
`result.status` and stamps `completedAt`, both even when the stored status
is already `completed` or `failed`. -/
theorem terminal_state_events_policy (rate : ℚ) (env : Env) (rs : Nat → Nat)
    (st : ServerState) (ws : Nat) (tid pid : String) (nd : NfcData)
    (res : CompletedResult)
    (hv : validTerminalId (some tid) = true)
    (hreg : mapHas st.clients tid = true)
    (hne : ¬ pid = "") :
    (findById st.payments pid = none →
      handleNFCDetected rate env rs st ws
          { terminalId := some tid, paymentId := some pid, nfcData := nd }
        = pushMsg st ws (Msg.errorMsg "Payment not found") ∧
      handlePaymentCompleted env st ws
          { terminalId := some tid, paymentId := some pid, result := res }
        = pushMsg st ws (Msg.errorMsg "Payment not found")) ∧
    (∀ p : Payment, findById st.payments pid = some p →
      (∃ p' : Payment,
        findById (handleNFCDetected rate env rs st ws
            { terminalId := some tid, paymentId := some pid,
              nfcData := nd }).payments pid = some p' ∧
        p'.method = "nfc" ∧
        (p'.status = "completed" ∨ p'.status = "failed")) ∧
      findById (handlePaymentCompleted env st ws
          { terminalId := some tid, paymentId := some pid,
            result := res }).payments pid
        = some (p.applyUpdate
            { status := some res.status,
              bankTransactionId := jsOrNullStr res.bankTransactionId,
              errorCode := jsOrNullStr res.errorCode,
              completedAt := some env.now })) := by
  constructor
  · intro hnone
    constructor
    · simp [handleNFCDetected, handleNFCDetectedRun, hv, hreg, hnone,
        jsOrNullStr, hne]
    · simp [handlePaymentCompleted, hv, hnone]
  · intro p hp
    have hpid : p.id = pid := findById_id _ _ _ hp
    have hhas : hasPayment st.payments pid = true := hasPayment_of_findById _ _ _ hp
    constructor
    · rw [handleNFCDetected,
        handleNFC_existing rate env rs st ws tid pid p nd hv hreg hne hp]
      have hhas3 : hasPayment
          (nfcProceedState st ws
            (p.applyUpdate { method := some "nfc", status := some "processing" })).payments
          (p.applyUpdate { method := some "nfc", status := some "processing" }).id
          = true := by
        simp [nfcProceedState, pushMsg, logTransaction, hasPayment_writeRow,
          applyUpdate_id, hpid, hhas]
      have hspec := processNFC_spec rate env rs
        (nfcProceedState st ws
          (p.applyUpdate { method := some "nfc", status := some "processing" }))
        tid (p.applyUpdate { method := some "nfc", status := some "processing" }) hhas3
      have h1 := hspec.1
      rw [applyUpdate_id, hpid] at h1
      exact ⟨_, h1, hspec.2.2.1, hspec.2.2.2.1⟩
    · have hw := findById_writeRow_self st.payments
        (p.applyUpdate
          { status := some res.status,
            bankTransactionId := jsOrNullStr res.bankTransactionId,
            errorCode := jsOrNullStr res.errorCode,
            completedAt := some env.now })
        (by rw [applyUpdate_id, hpid]; exact hhas)
      rw [applyUpdate_id, hpid] at hw
      simp [handlePaymentCompleted, hv, hp, logTransaction, pushMsg]
      exact hw

/-- Witness for C1 (amended): concrete rejection of a missing session id,
and concrete overwrite of the stored completed session by a
`payment_completed` event. -/
theorem terminal_state_events_policy_witness :
    handlePaymentCompleted {} cxState 7
        { terminalId := some "T1", paymentId := some "nope",
          result := { status := "failed" } }
      = pushMsg cxState 7 (Msg.errorMsg "Payment not found") ∧
    findById (handlePaymentCompleted {} cxState 7
        { terminalId := some "T1", paymentId := some "p1",
          result := { status := "failed" } }).payments "p1"
      = some (cxPay.applyUpdate
          { status := some "failed", bankTransactionId := none,
            errorCode := none, completedAt := some 0 }) := by
  constructor
  · exact ((terminal_state_events_policy 1 {} (fun _ => 1) cxState 7 "T1" "nope"
      {} { status := "failed" } (by decide) (by decide) (by decide)).1
      (by decide)).2
  · exact ((terminal_state_events_policy 1 {} (fun _ => 1) cxState 7 "T1" "p1"
      {} { status := "failed" } (by decide) (by decide) (by decide)).2 cxPay
      (by decide)).2

/-!
## C2 and C3: declined authorizations, `bankTransactionId`, `completedAt`
-/

/-- A freshly created `pending` session. -/
def pendingPay : Payment :=
  { id := "p2", terminalId := "T1", amount := 500, currency := "RUB",
    method := "", status := "pending", bankTransactionId := none,
    errorCode := none, createdAt := 0, completedAt := none }

/-- A server with terminal `T1` registered on connection 7 and the pending
session stored. -/
def pendingState : ServerState :=
  { clients := [("T1", 7)], payments := [pendingPay], outbox := [], tlog := [] }

/-- C2 (counterexample): with `successRate` forced to 0 via
`setSuccessRate(0.0)`, the declined `nfc_detected` run ends `failed` with a
bank error code — but the bank transaction id of the declined authorization
IS stored on the session, contradicting "no bankTransactionId stored". -/
theorem declined_auth_stores_bank_reference :
    findById (handleNFCDetected (setSuccessRate 0) {} (fun _ => 1)
        pendingState 7 { terminalId := some "T1", paymentId := some "p2" }).payments "p2"
      = some { pendingPay with
          method := "nfc", status := "failed",
          errorCode := some "E001", bankTransactionId := some "tx-fresh" } := by
  decide

/-- C2 (amended): a declined authorization ends the session `failed` with a
code from the 6-code bank taxonomy, `capturePayment` is never invoked, and
the declined authorization's bank transaction id is stored as
`bankTransactionId` (the code keeps the reference for traceability rather
than leaving it null). -/
theorem auth_decline_outcome (rate : ℚ) (env : Env) (rs : Nat → Nat)
    (st : ServerState) (tid : String) (pay : Payment)
    (hth : env.authThrows = false) (hrand : ¬ env.authRand < rate) :
    (processNFCPaymentWithBank rate env rs st tid pay).2.1.status = "failed" ∧
    (∃ c ∈ bankTaxonomy,
      (processNFCPaymentWithBank rate env rs st tid pay).2.1.errorCode = some c) ∧
    (processNFCPaymentWithBank rate env rs st tid pay).2.1.bankTransactionId
      = some env.authTid ∧
    (processNFCPaymentWithBank rate env rs st tid pay).2.2 = false := by
  obtain ⟨h1, h2, h3, h4, _⟩ := processNFC_declined rate env rs st tid pay hth hrand
  exact ⟨h2, ⟨_, generateRandomError_in_taxonomy _, h3⟩, h4, h1⟩

/-- Witness for C2 (amended): the concrete declined run. -/
theorem auth_decline_outcome_witness :
    (processNFCPaymentWithBank (setSuccessRate 0) {} (fun _ => 1)
        pendingState "T1" pendingPay).2.1.bankTransactionId = some "tx-fresh" ∧
    (processNFCPaymentWithBank (setSuccessRate 0) {} (fun _ => 1)
        pendingState "T1" pendingPay).2.2 = false := by
  have h := auth_decline_outcome (setSuccessRate 0) {} (fun _ => 1)
    pendingState "T1" pendingPay rfl (by norm_num [setSuccessRate])
  exact ⟨h.2.2.1, h.2.2.2⟩

/-- C3 (counterexample): the orchestrator's auth-decline path leaves the
stored session `failed` with `completedAt` still unset, contradicting
"`completedAt` is set iff status ∈ {completed, failed}". -/
theorem failed_session_lacks_completed_timestamp :
    ((findById (handleNFCDetected (setSuccessRate 0) {} (fun _ => 1)
        pendingState 7 { terminalId := some "T1", paymentId := some "p2" }).payments
        "p2").map Payment.status = some "failed") ∧
    ((findById (handleNFCDetected (setSuccessRate 0) {} (fun _ => 1)
        pendingState 7 { terminalId := some "T1", paymentId := some "p2" }).payments
        "p2").map Payment.completedAt = some none) := by
  constructor <;> decide

/-- C3 (amended): in the orchestrator's bank cycle, `completedAt` is
stamped exactly on the capture-success (`completed`) outcome; every failure
path (auth declined, capture declined, thrown bank call) leaves
`completedAt` untouched, so a session that enters with `completedAt = null`
ends `failed` with `completedAt` still null.  (An external
`payment_completed` event does stamp `completedAt`, for any result status —
see the C1 theorem.) -/
theorem completed_timestamp_policy (rate : ℚ) (env : Env) (rs : Nat → Nat)
    (st : ServerState) (tid : String) (pay : Payment)
    (hrow : hasPayment st.payments pay.id = true)
    (hnotyet : pay.completedAt = none) :
    ((processNFCPaymentWithBank rate env rs st tid pay).2.1.status = "completed" →
      (processNFCPaymentWithBank rate env rs st tid pay).2.1.completedAt
        = some env.now) ∧
    ((processNFCPaymentWithBank rate env rs st tid pay).2.1.status = "failed" →
      (processNFCPaymentWithBank rate env rs st tid pay).2.1.completedAt = none) ∧
    findById (processNFCPaymentWithBank rate env rs st tid pay).1.payments pay.id
      = some (processNFCPaymentWithBank rate env rs st tid pay).2.1 := by
  have h := processNFC_spec rate env rs st tid pay hrow
  exact ⟨h.2.2.2.2.1, fun hx => by rw [h.2.2.2.2.2 hx, hnotyet], h.1⟩

/-- Witness for C3 (amended): the concrete declined run ends `failed` with
`completedAt` still null. -/
theorem completed_timestamp_policy_witness :
    (processNFCPaymentWithBank (setSuccessRate 0) {} (fun _ => 1)
        pendingState "T1" pendingPay).2.1.completedAt = none := by
  refine (completed_timestamp_policy (setSuccessRate 0) {} (fun _ => 1)
    pendingState "T1" pendingPay (by decide) rfl).2.1 ?_
  decide

/-!
## C4: thrown bank calls are caught at the orchestrator boundary
-/

/-- C4: when the bank simulator throws while the orchestrator processes a
method-detection event (either bank call rejects), the exception is caught
(`processNFCPaymentWithBank` is a total function — the `catch` branch is
taken), the stored session ends `failed` — never `processing` — with the
network-error code `E003`, and exactly one failed `payment_status` event is
pushed to the terminal's open connection. -/
theorem bank_exception_drives_failed (rate : ℚ) (env : Env) (rs : Nat → Nat)
    (st : ServerState) (tid : String) (pay : Payment) (c : Nat)
    (hthrow : env.authThrows = true ∨
      (env.authRand < rate ∧ env.capThrows = true))
    (hrow : hasPayment st.payments pay.id = true)
    (hc : mapGet st.clients tid = some c)
    (ho : rs c = wsOpen) :
    findById (processNFCPaymentWithBank rate env rs st tid pay).1.payments pay.id
      = some (processNFCPaymentWithBank rate env rs st tid pay).2.1 ∧
    (processNFCPaymentWithBank rate env rs st tid pay).2.1.status = "failed" ∧
    (processNFCPaymentWithBank rate env rs st tid pay).2.1.status ≠ "processing" ∧
    (processNFCPaymentWithBank rate env rs st tid pay).2.1.errorCode
      = some "E003" ∧
    (processNFCPaymentWithBank rate env rs st tid pay).1.outbox
      = st.outbox ++
        [(c, Msg.paymentStatus pay.id "failed" "Bank communication error"
          { errorCode := some "E003",
            errorMessage := some "Network connection error" })] := by
  rcases hthrow with h1 | ⟨h2, h3⟩
  · simp only [processNFCPaymentWithBank, h1, if_true, bankErrorBranch,
      logTransaction, sendToTerminal, pushMsg]
    simp only [hc, ho, wsOpen, beq_self_eq_true]
    refine ⟨?_, rfl, by intro hx; simp [Payment.applyUpdate] at hx, rfl, rfl⟩
    exact findById_writeRow_self _ _ (by rwa [applyUpdate_id])
  · simp only [processNFCPaymentWithBank, h3, authorizePayment, h2, if_true,
      bankErrorBranch, logTransaction, sendToTerminal, pushMsg]
    by_cases h1 : env.authThrows
    · simp only [h1, if_true]
      simp only [hc, ho, wsOpen, beq_self_eq_true]
      refine ⟨?_, rfl, by intro hx; simp [Payment.applyUpdate] at hx, rfl, rfl⟩
      exact findById_writeRow_self _ _ (by rwa [applyUpdate_id])
    · simp only [h1, if_false, Bool.false_eq_true]
      simp only [hc, ho, wsOpen, beq_self_eq_true]
      refine ⟨?_, rfl, by intro hx; simp [Payment.applyUpdate] at hx, rfl, rfl⟩
      exact findById_writeRow_self _ _
        (by simp [hasPayment_writeRow, applyUpdate_id, hrow])

/-- Witness for C4: a concrete thrown authorization. -/
theorem bank_exception_drives_failed_witness :
    (processNFCPaymentWithBank 1 { authThrows := true } (fun _ => 1)
        pendingState "T1" pendingPay).2.1.errorCode = some "E003" ∧
    (processNFCPaymentWithBank 1 { authThrows := true } (fun _ => 1)
        pendingState "T1" pendingPay).1.outbox
      = [(7, Msg.paymentStatus "p2" "failed" "Bank communication error"
          { errorCode := some "E003",
            errorMessage := some "Network connection error" })] := by
  have h := bank_exception_drives_failed 1 { authThrows := true } (fun _ => 1)
    pendingState "T1" pendingPay 7 (Or.inl rfl) (by decide) (by decide) rfl
  exact ⟨h.2.2.2.1, h.2.2.2.2⟩

/-!
## C5: payment requests to a disconnected terminal
-/

lemma hasPayment_append_self (rows : List Payment) (p : Payment) :
    hasPayment (rows ++ [p]) p.id = true := by
  induction rows with
  | nil => simp [hasPayment]
  | cons q rest ih => simp [hasPayment, ih]

lemma not_connected_readyState (rs : Nat → Nat) (clients : List (String × Nat))
    (tid : String) (c : Nat)
    (htrim : (strTrim tid == "") = false)
    (h : isTerminalConnected rs clients (some tid) = false)
    (hg : mapGet clients tid = some c) :
    (rs c == wsOpen) = false := by
  simp [isTerminalConnected, htrim, hg] at h
  simpa using h

/-- C5: a payment request for a valid terminal id with no live channel
fails with the `Terminal not connected` error, delivers no event, and still
leaves a stored session record, marked `failed` with the
`TERMINAL_OFFLINE` error code. -/
theorem payment_request_disconnected_terminal (env : Env) (rs : Nat → Nat)
    (st : ServerState) (tid : String) (pd : ReqPaymentData)
    (hv : validTerminalId (some tid) = true)
    (hdisc : isTerminalConnected rs st.clients (some tid) = false) :
    (sendPaymentRequest env rs st (some tid) pd).2
      = Except.error "Terminal not connected" ∧
    findById (sendPaymentRequest env rs st (some tid) pd).1.payments env.freshPid
      = some ((Payment.build env.freshPid env.now
          { terminalId := some tid, amount := pd.amount,
            currency := some (jsOrStr pd.currency "RUB"),
            method := some (jsOrStr pd.method "nfc"),
            status := some "pending" }).applyUpdate
          { status := some "failed", errorCode := some "TERMINAL_OFFLINE" }) ∧
    ((Payment.build env.freshPid env.now
        { terminalId := some tid, amount := pd.amount,
          currency := some (jsOrStr pd.currency "RUB"),
          method := some (jsOrStr pd.method "nfc"),
          status := some "pending" }).applyUpdate
        { status := some "failed", errorCode := some "TERMINAL_OFFLINE" }).status
      = "failed" ∧
    ((Payment.build env.freshPid env.now
        { terminalId := some tid, amount := pd.amount,
          currency := some (jsOrStr pd.currency "RUB"),
          method := some (jsOrStr pd.method "nfc"),
          status := some "pending" }).applyUpdate
        { status := some "failed", errorCode := some "TERMINAL_OFFLINE" }).errorCode
      = some "TERMINAL_OFFLINE" ∧
    (sendPaymentRequest env rs st (some tid) pd).1.outbox = st.outbox := by
  have htrim : (strTrim tid == "") = false := by
    simp [validTerminalId] at hv
    simpa using hv.2
  simp only [sendPaymentRequest, hv, Bool.not_true, Bool.false_eq_true,
    if_false, logTransaction, sendToTerminal, pushMsg]
  cases hg : mapGet st.clients tid with
  | none =>
    simp only [hg]
    refine ⟨rfl, ?_, rfl, rfl, rfl⟩
    exact findById_writeRow_self _ _
      (by simpa [hasPayment_writeRow, applyUpdate_id] using
        hasPayment_append_self st.payments _)
  | some c =>
    have hrc := not_connected_readyState rs st.clients tid c htrim hdisc hg
    simp only [hg, hrc]
    refine ⟨rfl, ?_, rfl, rfl, rfl⟩
    exact findById_writeRow_self _ _
      (by simpa [hasPayment_writeRow, applyUpdate_id] using
        hasPayment_append_self st.payments _)

/-- A server with no registered terminal connections. -/
def emptyState : ServerState :=
  { clients := [], payments := [], outbox := [], tlog := [] }

/-- Witness for C5: a concrete request to a terminal with no channel. -/
theorem payment_request_disconnected_terminal_witness :
    (sendPaymentRequest {} (fun _ => 1) emptyState (some "T1")
        { amount := some 500 }).2 = Except.error "Terminal not connected" ∧
    (findById (sendPaymentRequest {} (fun _ => 1) emptyState (some "T1")
        { amount := some 500 }).1.payments "p-fresh").map Payment.status
      = some "failed" := by
  have h := payment_request_disconnected_terminal {} (fun _ => 1) emptyState
    "T1" { amount := some 500 } (by decide) (by decide)
  refine ⟨h.1, ?_⟩
  rw [h.2.1]
  rfl

/-!
## C6: connection replacement and close-by-identity
-/

lemma mapHas_false_forall (m : List (String × Nat)) (k : String)
    (h : mapHas m k = false) : ∀ e ∈ m, ¬ e.1 = k := by
  induction m with
  | nil => simp
  | cons f rest ih =>
    simp [mapHas] at h
    intro e he
    rcases List.mem_cons.mp he with he | he
    · rw [he]; exact h.1
    · exact ih (by simpa [mapHas] using h.2) e he

lemma mapGet_mapReplace_self (m : List (String × Nat)) (k : String) (v : Nat)
    (h : mapHas m k = true) : mapGet (mapReplace m k v) k = some v := by
  induction m with
  | nil => simp [mapHas] at h
  | cons e rest ih =>
    by_cases he : e.1 = k
    · simp [mapReplace, mapGet, he]
    · simp [mapHas, he] at h
      simp [mapReplace, mapGet, he]
      exact ih (by simpa [mapHas] using h)

lemma mapGet_append_absent (m : List (String × Nat)) (k : String) (v : Nat)
    (h : mapHas m k = false) : mapGet (m ++ [(k, v)]) k = some v := by
  induction m with
  | nil => simp [mapGet]
  | cons e rest ih =>
    simp [mapHas] at h
    simp [mapGet, h.1]
    exact ih (by simpa [mapHas] using h.2)

lemma mapGet_mapSet_self (m : List (String × Nat)) (k : String) (v : Nat) :
    mapGet (mapSet m k v) k = some v := by
  unfold mapSet
  by_cases h : mapHas m k = true
  · simp [h, mapGet_mapReplace_self m k v h]
  · have hf : mapHas m k = false := by simpa using h
    simp [hf, mapGet_append_absent m k v hf]

lemma mapReplace_entry (m : List (String × Nat)) (k : String) (v : Nat) :
    ∀ e ∈ mapReplace m k v, e.1 = k → e.2 = v := by
  induction m with
  | nil => simp [mapReplace]
  | cons f rest ih =>
    intro e he hk
    by_cases hf : f.1 = k
    · simp [mapReplace, hf] at he
      rcases he with he | he
      · rw [he]
      · exact ih e he hk
    · simp [mapReplace, hf] at he
      rcases he with he | he
      · rw [he] at hk
        exact absurd hk hf
      · exact ih e he hk

lemma mapReplace_mem (m : List (String × Nat)) (k : String) (v : Nat) :
    ∀ e ∈ mapReplace m k v, e = (k, v) ∨ e ∈ m := by
  induction m with
  | nil => simp [mapReplace]
  | cons f rest ih =>
    intro e he
    by_cases hf : f.1 = k
    · simp [mapReplace, hf] at he
      rcases he with he | he
      · exact Or.inl (by rw [he])
      · rcases ih e he with hx | hx
        · exact Or.inl hx
        · exact Or.inr (by simp [hx])
    · simp [mapReplace, hf] at he
      rcases he with he | he
      · exact Or.inr (by simp [he])
      · rcases ih e he with hx | hx
        · exact Or.inl hx
        · exact Or.inr (by simp [hx])

lemma mapSet_entry (m : List (String × Nat)) (k : String) (v : Nat) :
    ∀ e ∈ mapSet m k v, e.1 = k → e.2 = v := by
  unfold mapSet
  by_cases h : mapHas m k = true
  · simp only [h, if_true]
    exact mapReplace_entry m k v
  · have hf : mapHas m k = false := by simpa using h
    simp only [hf, if_false, Bool.false_eq_true]
    intro e he hk
    rcases List.mem_append.mp he with he | he
    · exact absurd hk (mapHas_false_forall m k hf e he)
    · simp at he
      rw [he]

lemma mapSet_mem (m : List (String × Nat)) (k : String) (v : Nat) :
    ∀ e ∈ mapSet m k v, e = (k, v) ∨ e ∈ m := by
  unfold mapSet
  by_cases h : mapHas m k = true
  · simp only [h, if_true]
    exact mapReplace_mem m k v
  · have hf : mapHas m k = false := by simpa using h
    simp only [hf, if_false, Bool.false_eq_true]
    intro e he
    rcases List.mem_append.mp he with he | he
    · exact Or.inr he
    · exact Or.inl (by simpa using he)

lemma mapDelete_mem (m : List (String × Nat)) (ws : Nat) :
    ∀ e ∈ mapDeleteFirstConn m ws, e ∈ m := by
  induction m with
  | nil => simp [mapDeleteFirstConn]
  | cons f rest ih =>
    intro e he
    by_cases hf : f.2 = ws
    · simp [mapDeleteFirstConn, hf] at he
      exact List.mem_cons_of_mem f he
    · have hbf : (f.2 == ws) = false := by simpa using hf
      simp only [mapDeleteFirstConn, hbf, if_false, Bool.false_eq_true] at he
      rcases List.mem_cons.mp he with he | he
      · simp [he]
      · exact List.mem_cons_of_mem f (ih e he)

lemma mapGet_delete_of_ne (m : List (String × Nat)) (ws : Nat) (k : String)
    (h : ∀ e ∈ m, e.1 = k → e.2 ≠ ws) :
    mapGet (mapDeleteFirstConn m ws) k = mapGet m k := by
  induction m with
  | nil => simp [mapDeleteFirstConn]
  | cons f rest ih =>
    by_cases hf : f.2 = ws
    · have hfk : ¬ f.1 = k := fun hx => h f (by simp) hx hf
      simp [mapDeleteFirstConn, hf, mapGet, hfk]
    · have hbf : (f.2 == ws) = false := by simpa using hf
      simp only [mapDeleteFirstConn, hbf, if_false, Bool.false_eq_true]
      by_cases hfk : f.1 = k
      · simp [mapGet, hfk]
      · simp [mapGet, hfk]
        exact ih (fun e he => h e (List.mem_cons_of_mem f he))

lemma mapGet_none_of_no_key (m : List (String × Nat)) (k : String)
    (h : ∀ e ∈ m, ¬ e.1 = k) : mapGet m k = none := by
  induction m with
  | nil => simp [mapGet]
  | cons f rest ih =>
    simp [mapGet, h f (by simp)]
    exact ih (fun e he => h e (List.mem_cons_of_mem f he))

lemma mapReplace_keys (m : List (String × Nat)) (k : String) (v : Nat) :
    (mapReplace m k v).map Prod.fst = m.map Prod.fst := by
  induction m with
  | nil => simp [mapReplace]
  | cons f rest ih =>
    by_cases hf : f.1 = k
    · simp [mapReplace, hf, ih]
    · simp [mapReplace, hf, ih]

lemma mapSet_keys_nodup (m : List (String × Nat)) (k : String) (v : Nat)
    (h : (m.map Prod.fst).Nodup) : ((mapSet m k v).map Prod.fst).Nodup := by
  unfold mapSet
  by_cases hh : mapHas m k = true
  · simp only [hh, if_true, mapReplace_keys]
    exact h
  · have hf : mapHas m k = false := by simpa using hh
    simp only [hf, if_false, Bool.false_eq_true, List.map_append]
    have hk : k ∉ m.map Prod.fst := by
      intro hx
      rcases List.mem_map.mp hx with ⟨e, he, hek⟩
      exact mapHas_false_forall m k hf e he hek
    rw [List.nodup_append]
    refine ⟨h, by simp, ?_⟩
    intro x hx hxk
    simp at hxk
    rw [hxk] at hx
    exact hk hx

lemma mapDelete_keys_sublist (m : List (String × Nat)) (ws : Nat) :
    ((mapDeleteFirstConn m ws).map Prod.fst).Sublist (m.map Prod.fst) := by
  induction m with
  | nil => simp [mapDeleteFirstConn]
  | cons f rest ih =>
    by_cases hf : f.2 = ws
    · simp [mapDeleteFirstConn, hf]
    · have hbf : (f.2 == ws) = false := by simpa using hf
      simp only [mapDeleteFirstConn, hbf, if_false, Bool.false_eq_true,
        List.map_cons]
      exact List.Sublist.cons₂ _ ih

lemma mapGet_delete_self (m : List (String × Nat)) (b : Nat) (T : String)
    (hval : ∀ e ∈ m, e.2 = b → e.1 = T)
    (hkey : (m.map Prod.fst).Nodup)
    (hget : mapGet m T = some b) :
    mapGet (mapDeleteFirstConn m b) T = none := by
  induction m with
  | nil => simp [mapGet] at hget
  | cons e rest ih =>
    rw [List.map_cons] at hkey
    have h12 := List.nodup_cons.mp hkey
    by_cases he : e.2 = b
    · have heT : e.1 = T := hval e (by simp) he
      simp only [mapDeleteFirstConn, he, beq_self_eq_true, if_true]
      apply mapGet_none_of_no_key
      intro f hf hfT
      exact h12.1 (by
        rw [heT, ← hfT]
        exact List.mem_map_of_mem Prod.fst hf)
    · have hbe : (e.2 == b) = false := by simpa using he
      simp only [mapDeleteFirstConn, hbe, if_false, Bool.false_eq_true]
      by_cases heT : e.1 = T
      · rw [mapGet, show (e.1 == T) = true by simpa using heT] at hget
        simp at hget
        exact absurd hget he
      · rw [mapGet, show (e.1 == T) = false by simpa using heT] at hget
        rw [mapGet, show (e.1 == T) = false by simpa using heT]
        simp only [if_false, Bool.false_eq_true] at hget ⊢
        exact ih (fun f hf => hval f (List.mem_cons_of_mem e hf)) h12.2 hget

/-- C6: registering connection `a` for terminal `T`, then connection `b`
for `T` (replacing `a`), then running the close handler for `a` does not
evict `b`: `T` still maps to `b` and is reported connected while `b` is
open.  Closing `b` afterwards removes the mapping, and `T` is reported
disconnected.  (`m` is any prior map with JS-Map key uniqueness and `b` a
fresh connection handle.) -/
theorem channel_replacement_close_by_identity (m : List (String × Nat))
    (T : String) (a b : Nat) (rs : Nat → Nat)
    (hkeys : (m.map Prod.fst).Nodup)
    (hfresh : ∀ e ∈ m, e.2 ≠ b)
    (hab : a ≠ b)
    (hT : (strTrim T == "") = false)
    (hopen : rs b = wsOpen) :
    mapGet (mapDeleteFirstConn (mapSet (mapSet m T a) T b) a) T = some b ∧
    isTerminalConnected rs
      (mapDeleteFirstConn (mapSet (mapSet m T a) T b) a) (some T) = true ∧
    mapGet (mapDeleteFirstConn
      (mapDeleteFirstConn (mapSet (mapSet m T a) T b) a) b) T = none ∧
    isTerminalConnected rs
      (mapDeleteFirstConn
        (mapDeleteFirstConn (mapSet (mapSet m T a) T b) a) b) (some T)
      = false := by
  have hval2 : ∀ e ∈ mapSet (mapSet m T a) T b, e.1 = T → e.2 = b :=
    mapSet_entry (mapSet m T a) T b
  have hg3 : mapGet (mapDeleteFirstConn (mapSet (mapSet m T a) T b) a) T
      = some b := by
    rw [mapGet_delete_of_ne _ a T
      (fun e he h1 => by rw [hval2 e he h1]; exact (Ne.symm hab))]
    exact mapGet_mapSet_self _ T b
  have hval3 : ∀ e ∈ mapDeleteFirstConn (mapSet (mapSet m T a) T b) a,
      e.2 = b → e.1 = T := by
    intro e he heb
    have he2 := mapDelete_mem _ a e he
    rcases mapSet_mem (mapSet m T a) T b e he2 with hx | hx
    · rw [hx]
    · rcases mapSet_mem m T a e hx with hy | hy
      · rw [hy] at heb
        exact absurd heb hab
      · exact absurd heb (hfresh e hy)
  have hkeys3 : ((mapDeleteFirstConn (mapSet (mapSet m T a) T b) a).map
      Prod.fst).Nodup :=
    (mapDelete_keys_sublist _ a).nodup
      (mapSet_keys_nodup _ T b (mapSet_keys_nodup m T a hkeys))
  have hg4 := mapGet_delete_self _ b T hval3 hkeys3 hg3
  refine ⟨hg3, ?_, hg4, ?_⟩
  · simp [isTerminalConnected, hT, hg3, hopen]
  · simp [isTerminalConnected, hT, hg4]

/-- Witness for C6: the concrete replacement scenario on an empty map. -/
theorem channel_replacement_witness :
    mapGet (mapDeleteFirstConn (mapSet (mapSet [] "T1" 3) "T1" 4) 3) "T1"
      = some 4 ∧
    isTerminalConnected (fun c => if c = 4 then 1 else 0)
      (mapDeleteFirstConn
        (mapDeleteFirstConn (mapSet (mapSet [] "T1" 3) "T1" 4) 3) 4)
      (some "T1") = false := by
  have h := channel_replacement_close_by_identity [] "T1" 3 4
    (fun c => if c = 4 then 1 else 0) (by simp) (by simp) (by decide)
    (by decide) (by decide)
  exact ⟨h.1, h.2.2.2⟩

/-!
## C7: configuring `successRate` and forced declines
-/

/-- C7 (counterexample): the constructor default is `options.successRate ||
0.9`, so a simulator constructed with `successRate = 0.0` actually gets the
default rate 0.9 — and its `authorize()` can succeed (here with draw 1/2),
contradicting "configurable to any value in [0,1] … with successRate = 0.0
every authorize() call fails". -/
theorem constructor_zero_success_rate_ignored :
    initSuccessRate (some 0) = 9/10 ∧
    (authorizePayment (initSuccessRate (some 0)) (1/2) "t1" 0 [] 0
      ⟨100, "RUB"⟩).success = true := by
  have h0 : initSuccessRate (some 0) = 9/10 := by
    norm_num [initSuccessRate, jsOrRat]
  refine ⟨h0, ?_⟩
  have hlt : (1:ℚ)/2 < initSuccessRate (some 0) := by
    rw [h0]
    norm_num
  unfold authorizePayment
  rw [if_pos hlt]

/-- C7 (amended): `setSuccessRate` accepts any value in `[0,1]` unchanged
(the constructor option cannot express 0, which falls back to 0.9); once
the rate is actually 0, every `authorize()` call fails with a code from the
6-code taxonomy, `capturePayment` is never invoked, and the session reaches
`failed`. -/
theorem zero_success_rate_always_declines (env : Env) (rs : Nat → Nat)
    (st : ServerState) (tid : String) (pay : Payment) (r : ℚ)
    (hr0 : 0 ≤ r) (hr1 : r ≤ 1)
    (hrand : 0 ≤ env.authRand)
    (hth : env.authThrows = false) :
    setSuccessRate r = r ∧
    (authorizePayment (setSuccessRate 0) env.authRand env.authTid
      env.authErrIdx env.authDigits env.now ⟨pay.amount, pay.currency⟩).success
      = false ∧
    (∃ c ∈ bankTaxonomy,
      (authorizePayment (setSuccessRate 0) env.authRand env.authTid
        env.authErrIdx env.authDigits env.now
        ⟨pay.amount, pay.currency⟩).errorCode = some c) ∧
    (processNFCPaymentWithBank (setSuccessRate 0) env rs st tid pay).2.2
      = false ∧
    (processNFCPaymentWithBank (setSuccessRate 0) env rs st tid pay).2.1.status
      = "failed" := by
  have h0 : setSuccessRate 0 = 0 := by norm_num [setSuccessRate]
  have hnl : ¬ env.authRand < setSuccessRate 0 := by
    rw [h0]
    exact not_lt.mpr hrand
  obtain ⟨d1, d2, _, _, _⟩ :=
    processNFC_declined (setSuccessRate 0) env rs st tid pay hth hnl
  refine ⟨?_, ?_, ?_, d1, d2⟩
  · simp [setSuccessRate, min_eq_right hr1, max_eq_right hr0]
  · simp [authorizePayment, hnl]
  · exact ⟨_, generateRandomError_in_taxonomy env.authErrIdx,
      by simp [authorizePayment, hnl]⟩

/-- Witness for C7 (amended): the concrete forced-decline run. -/
theorem zero_success_rate_always_declines_witness :
    (processNFCPaymentWithBank (setSuccessRate 0) {} (fun _ => 1)
        pendingState "T1" pendingPay).2.2 = false ∧
    (processNFCPaymentWithBank (setSuccessRate 0) {} (fun _ => 1)
        pendingState "T1" pendingPay).2.1.status = "failed" := by
  have h := zero_success_rate_always_declines {} (fun _ => 1) pendingState
    "T1" pendingPay (1/2) (by norm_num) (by norm_num) le_rfl rfl
  exact ⟨h.2.2.2.1, h.2.2.2.2⟩

/-!
## C9: no amount validation before session creation
-/

/-- A server with terminal `T1` registered on an open connection and no
stored sessions. -/
def reqState : ServerState :=
  { clients := [("T1", 7)], payments := [], outbox := [], tlog := [] }

/-- C9 (counterexample): a payment request with a missing amount is not
rejected — `sendPaymentRequest` creates and stores a session record with
`amount = 0` (the `Payment` constructor's `data.amount || 0` default) and
returns it as a pending session, violating `amount > 0`.  No bank call is
involved at all. -/
theorem session_created_with_zero_amount :
    findById (sendPaymentRequest {} (fun _ => 1) reqState (some "T1")
        { amount := none }).1.payments "p-fresh"
      = some { id := "p-fresh", terminalId := "T1", amount := 0,
               currency := "RUB", method := "nfc", status := "pending",
               bankTransactionId := none, errorCode := none,
               createdAt := 0, completedAt := none } ∧
    (sendPaymentRequest {} (fun _ => 1) reqState (some "T1")
        { amount := none }).2
      = Except.ok { id := "p-fresh", terminalId := "T1", amount := 0,
                    currency := "RUB", method := "nfc", status := "pending",
                    bankTransactionId := none, errorCode := none,
                    createdAt := 0, completedAt := none } := by
  exact ⟨by decide, rfl⟩

/-- C9 (amended): `sendPaymentRequest` validates only the terminal id.  For
every payload it creates and stores a session whose amount is the given
amount passed through the constructor's `|| 0` default — `0` when missing
or zero, the raw value when negative — so records with `amount ≤ 0` are
creatable; `amount > 0` is enforced only by the HTTP routes in front of it. -/
theorem send_payment_request_no_amount_validation (env : Env)
    (rs : Nat → Nat) (st : ServerState) (tid : String) (pd : ReqPaymentData)
    (c : Nat)
    (hv : validTerminalId (some tid) = true)
    (hc : mapGet st.clients tid = some c)
    (ho : rs c = wsOpen)
    (hfresh : hasPayment st.payments env.freshPid = false) :
    (sendPaymentRequest env rs st (some tid) pd).2
      = Except.ok (Payment.build env.freshPid env.now
          { terminalId := some tid, amount := pd.amount,
            currency := some (jsOrStr pd.currency "RUB"),
            method := some (jsOrStr pd.method "nfc"),
            status := some "pending" }) ∧
    findById (sendPaymentRequest env rs st (some tid) pd).1.payments
        env.freshPid
      = some (Payment.build env.freshPid env.now
          { terminalId := some tid, amount := pd.amount,
            currency := some (jsOrStr pd.currency "RUB"),
            method := some (jsOrStr pd.method "nfc"),
            status := some "pending" }) ∧
    (Payment.build env.freshPid env.now
        { terminalId := some tid, amount := pd.amount,
          currency := some (jsOrStr pd.currency "RUB"),
          method := some (jsOrStr pd.method "nfc"),
          status := some "pending" }).amount = jsOrInt pd.amount 0 := by
  simp only [sendPaymentRequest, hv, Bool.not_true, Bool.false_eq_true,
    if_false, logTransaction, sendToTerminal, pushMsg]
  simp only [hc, ho, wsOpen, beq_self_eq_true]
  refine ⟨rfl, ?_, rfl⟩
  exact findById_append_fresh st.payments _ hfresh

/-- Witness for C9 (amended): a negative amount is stored as given. -/
theorem send_payment_request_no_amount_validation_witness :
    findById (sendPaymentRequest {} (fun _ => 1) reqState (some "T1")
        { amount := some (-5) }).1.payments "p-fresh"
      = some (Payment.build "p-fresh" 0
          { terminalId := some "T1", amount := some (-5),
            currency := some "RUB", method := some "nfc",
            status := some "pending" }) := by
  exact (send_payment_request_no_amount_validation {} (fun _ => 1) reqState
    "T1" { amount := some (-5) } 7 (by decide) (by decide) rfl
    (by decide)).2.1

/-!
## C10: `terminal_ready` registration policy
-/

/-- C10: the `terminal_ready` handshake registers the connection and pushes
`terminal_config` only when the supplied terminal id is a non-empty,
non-whitespace string naming a terminal that exists in the database
(`terminals` is the set of stored terminal ids); otherwise an `error` event
is sent on the connection and the terminal-id → connection map is left
unchanged. -/
theorem terminal_ready_registration (terminals : List String)
    (st : ServerState) (ws : Nat) (t : Option String) :
    (validTerminalId t = false →
      handleTerminalReady terminals st ws { terminalId := t }
        = pushMsg st ws (Msg.errorMsg "Valid Terminal ID is required")) ∧
    (∀ tid, t = some tid → validTerminalId t = true →
      (terminals.contains tid = false →
        handleTerminalReady terminals st ws { terminalId := t }
          = pushMsg st ws (Msg.errorMsg "Terminal not found")) ∧
      (terminals.contains tid = true →
        handleTerminalReady terminals st ws { terminalId := t }
          = pushMsg { st with clients := mapSet st.clients tid ws } ws
              (Msg.terminalConfig tid))) := by
  constructor
  · intro hinv
    simp [handleTerminalReady, hinv]
  · rintro tid rfl hv
    constructor
    · intro hnc
      have hnc' : ¬ tid ∈ terminals := by simpa using hnc
      simp [handleTerminalReady, hv, hnc']
    · intro hcon
      have hcon' : tid ∈ terminals := by simpa using hcon
      simp [handleTerminalReady, hv, hcon']

/-- Witness for C10: a registered handshake, a missing terminal, and an
invalid id at concrete inputs. -/
theorem terminal_ready_registration_witness :
    handleTerminalReady ["T1"] emptyState 9 { terminalId := some "T1" }
      = pushMsg { emptyState with clients := mapSet emptyState.clients "T1" 9 }
          9 (Msg.terminalConfig "T1") ∧
    handleTerminalReady ["T1"] emptyState 9 { terminalId := some "T2" }
      = pushMsg emptyState 9 (Msg.errorMsg "Terminal not found") ∧
    handleTerminalReady ["T1"] emptyState 9 { terminalId := some "   " }
      = pushMsg emptyState 9 (Msg.errorMsg "Valid Terminal ID is required") := by
  refine ⟨?_, ?_, ?_⟩
  · exact ((terminal_ready_registration ["T1"] emptyState 9 (some "T1")).2
      "T1" rfl (by decide)).2 (by decide)
  · exact ((terminal_ready_registration ["T1"] emptyState 9 (some "T2")).2
      "T2" rfl (by decide)).1 (by decide)
  · exact (terminal_ready_registration ["T1"] emptyState 9 (some "   ")).1
      (by decide)

end QPos
